import Mathlib

/-
Shallow embedding of `src/structs.rs` from the rust-sitemap repository.

The file models the four field value types (Location, LastMod, ChangeFreq,
Priority), the two aggregates (UrlEntry, SiteMapEntry) and their builders,
following the Rust source line by line.  External library types (url::Url,
chrono DateTime<FixedOffset>, the parse errors of the url / chrono_utils /
std float parsers) are abstracted to opaque carriers, and the delegated
parsing functions are taken as explicit parameters, since their internals
live outside this crate.  Rust `f32` is modelled as an exact value:
a rational number, or one of the IEEE-754 special values NaN / +inf / -inf,
with IEEE comparison semantics (NaN compares false under every relation).
-/

namespace Sitemap

/-- Model of Rust `f32`: an exact finite value (a rational; every finite
IEEE-754 binary32 value is a rational) or one of the special values
NaN, positive infinity, negative infinity. -/
inductive F32 where
  | finite (val : ℚ)
  | nan
  | posInf
  | negInf
deriving DecidableEq, Repr

/-- IEEE-754 strict less-than on `F32`: any comparison involving NaN is
false, infinities compare as expected, finite values by rational order. -/
def F32.lt : F32 → F32 → Bool
  | F32.finite a, F32.finite b => decide (a < b)
  | F32.finite _, F32.posInf => true
  | F32.negInf, F32.finite _ => true
  | F32.negInf, F32.posInf => true
  | _, _ => false

/-- IEEE-754 strict greater-than on `F32` (Rust `a > b` is `b < a`). -/
def F32.gt (a b : F32) : Bool := F32.lt b a

/-- IEEE-754 less-or-equal on `F32`: false whenever NaN is involved. -/
def F32.le : F32 → F32 → Bool
  | F32.finite a, F32.finite b => decide (a ≤ b)
  | F32.finite _, F32.posInf => true
  | F32.negInf, F32.finite _ => true
  | F32.negInf, F32.posInf => true
  | F32.posInf, F32.posInf => true
  | F32.negInf, F32.negInf => true
  | _, _ => false

/-- The `f32` literal `0.0`. -/
def f32Zero : F32 := F32.finite 0

/-- The `f32` literal `1.0`. -/
def f32One : F32 := F32.finite 1

/-- External `url::Url` type (the `url` crate), abstracted: this crate
never inspects a parsed URL, it only stores and returns it. -/
structure Url where
  raw : String
deriving DecidableEq, Repr

/-- External `url::ParseError` type, abstracted to an opaque carrier. -/
structure UrlParseError where
  detail : String
deriving DecidableEq, Repr

/-- External chrono `DateTime<FixedOffset>` type, abstracted: this crate
never inspects a parsed timestamp, it only stores and returns it. -/
structure DateTime where
  stamp : Int
deriving DecidableEq, Repr

/-- External `chrono_utils::parser::error::ParseError` type, abstracted. -/
structure W3CParseError where
  detail : String
deriving DecidableEq, Repr

/-- External `std::num::ParseFloatError` type, abstracted. -/
structure ParseFloatError where
  detail : String
deriving DecidableEq, Repr

/-- Crate-level error type.  Modelled from the spec: the `Error` enum is
declared in the crate outside `src/structs.rs`; the spec calls it a
construction error carrying a descriptive message, and `structs.rs` only
ever constructs it as `Error::Invalid(message)`. -/
inductive Error where
  | Invalid (msg : String)
deriving DecidableEq, Repr

/-- Enum `Location` from `structs.rs`: url location. -/
inductive Location where
  | None
  | Url (url : Sitemap.Url)
  | Err (error : UrlParseError)
deriving DecidableEq, Repr

/-- Method `Location::get_url`: returns the url if present. -/
def Location.get_url : Location → Option Sitemap.Url
  | Location.Url url => some url
  | _ => none

/-- Impl `From<String> for Location`: parses a Url from a string by
delegating to `Url::parse` (passed here as the parameter `parseUrl`). -/
def Location.from_string (parseUrl : String → Except UrlParseError Sitemap.Url)
    (url : String) : Location :=
  match parseUrl url with
  | Except.ok url => Location.Url url
  | Except.error error => Location.Err error

/-- Enum `LastMod` from `structs.rs`: the date of last modification. -/
inductive LastMod where
  | None
  | DateTime (time : Sitemap.DateTime)
  | Err (error : W3CParseError)
deriving DecidableEq, Repr

/-- Method `LastMod::get_time`: returns modification time if present. -/
def LastMod.get_time : LastMod → Option Sitemap.DateTime
  | LastMod.DateTime time => some time
  | _ => none

/-- Impl `From<String> for LastMod`: delegates to `parse_w3c_datetime`
(passed here as the parameter `parseW3C`). -/
def LastMod.from_string (parseW3C : String → Except W3CParseError Sitemap.DateTime)
    (time : String) : LastMod :=
  match parseW3C time with
  | Except.ok time => LastMod.DateTime time
  | Except.error error => LastMod.Err error

/-- Struct `ChangeFreqParseError` from `structs.rs`. -/
structure ChangeFreqParseError where
  description : String
deriving DecidableEq, Repr

/-- Associated function `ChangeFreqParseError::new`. -/
def ChangeFreqParseError.new (description : String) : ChangeFreqParseError :=
  { description := description }

/-- Enum `ChangeFreq` from `structs.rs`: how frequently the page is likely
to change. -/
inductive ChangeFreq where
  | None
  | Always
  | Hourly
  | Daily
  | Weekly
  | Monthly
  | Yearly
  | Never
  | Err (error : ChangeFreqParseError)
deriving DecidableEq, Repr

/-- Method `ChangeFreq::as_str`. -/
def ChangeFreq.as_str : ChangeFreq → String
  | ChangeFreq.None => ""
  | ChangeFreq.Always => "always"
  | ChangeFreq.Hourly => "hourly"
  | ChangeFreq.Daily => "daily"
  | ChangeFreq.Weekly => "weekly"
  | ChangeFreq.Monthly => "monthly"
  | ChangeFreq.Yearly => "yearly"
  | ChangeFreq.Never => "never"
  | ChangeFreq.Err _ => ""

/-- Model of Rust `str::to_lowercase`, character by character via
`Char.toLower`.  On the ASCII inputs relevant to `ChangeFreq` (the seven
canonical tokens in any letter casing) this agrees exactly with Rust. -/
def rustToLowercase (s : String) : String := String.mk (s.data.map Char.toLower)

/-- Impl `From<String> for ChangeFreq`: lower-case the input, match the
seven canonical tokens, otherwise keep the original string in the error. -/
def ChangeFreq.from_string (time : String) : ChangeFreq :=
  let lowercase_time := rustToLowercase time
  match lowercase_time with
  | "always" => ChangeFreq.Always
  | "hourly" => ChangeFreq.Hourly
  | "daily" => ChangeFreq.Daily
  | "weekly" => ChangeFreq.Weekly
  | "monthly" => ChangeFreq.Monthly
  | "yearly" => ChangeFreq.Yearly
  | "never" => ChangeFreq.Never
  | _ => ChangeFreq.Err (ChangeFreqParseError.new time)

/-- Enum `Priority` from `structs.rs`: the priority of this URL relative
to other URLs on the site. -/
inductive Priority where
  | None
  | Value (value : F32)
  | Err (error : ParseFloatError)
  | ErrValueLesserZero (value : F32)
  | ErrValueGreaterOne (value : F32)
deriving DecidableEq, Repr

/-- Method `Priority::get_priority`: returns priority if present. -/
def Priority.get_priority : Priority → Option F32
  | Priority.Value value => some value
  | _ => none

/-- Impl `From<String> for Priority`: parse the string as `f32` (the
delegated std parser is the parameter `parseF32`), then classify the
parsed value by range with strict comparisons. -/
def Priority.from_string (parseF32 : String → Except ParseFloatError F32)
    (priority : String) : Priority :=
  match parseF32 priority with
  | Except.ok value =>
      if F32.gt value f32One then Priority.ErrValueGreaterOne value
      else if F32.lt value f32Zero then Priority.ErrValueLesserZero value
      else Priority.Value value
  | Except.error error => Priority.Err error

/-- Struct `UrlEntry` from `structs.rs`. -/
structure UrlEntry where
  loc : Location
  lastmod : LastMod
  changefreq : ChangeFreq
  priority : Priority
deriving DecidableEq, Repr

/-- Struct `UrlEntryBuilder` from `structs.rs`. -/
structure UrlEntryBuilder where
  url_entry : UrlEntry
deriving DecidableEq, Repr

/-- Method `UrlEntryBuilder::loc`: converts the string and stores whatever
variant results; always succeeds at this stage. -/
def UrlEntryBuilder.loc (self : UrlEntryBuilder)
    (parseUrl : String → Except UrlParseError Sitemap.Url) (url : String) :
    Except Error UrlEntryBuilder :=
  Except.ok { self with
    url_entry := { self.url_entry with loc := Location.from_string parseUrl url } }

/-- Method `UrlEntryBuilder::lastmod`: stores an already-parsed timestamp. -/
def UrlEntryBuilder.lastmod (self : UrlEntryBuilder) (date : Sitemap.DateTime) :
    Except Error UrlEntryBuilder :=
  Except.ok { self with
    url_entry := { self.url_entry with lastmod := LastMod.DateTime date } }

/-- Method `UrlEntryBuilder::changefreq`: stores an already-typed value. -/
def UrlEntryBuilder.changefreq (self : UrlEntryBuilder) (changefreq : ChangeFreq) :
    Except Error UrlEntryBuilder :=
  Except.ok { self with
    url_entry := { self.url_entry with changefreq := changefreq } }

/-- Method `UrlEntryBuilder::priority`: eagerly rejects a float outside
the range, with the error message spelled exactly as in the source. -/
def UrlEntryBuilder.priority (self : UrlEntryBuilder) (val : F32) :
    Except Error UrlEntryBuilder :=
  if F32.gt val f32One || F32.lt val f32Zero then
    Except.error (Error.Invalid "priority should be betwheen 0 and 1")
  else
    Except.ok { self with
      url_entry := { self.url_entry with priority := Priority.Value val } }

/-- Method `UrlEntryBuilder::build`: requires the location to be the `Url`
variant, otherwise fails; on success returns the accumulated entry. -/
def UrlEntryBuilder.build (self : UrlEntryBuilder) : Except Error UrlEntry :=
  match self.url_entry.loc with
  | Location.Url _ => Except.ok self.url_entry
  | _ => Except.error (Error.Invalid "Required a location in the Url")

/-- Associated function `UrlEntry::new`: a new empty `UrlEntry`. -/
def UrlEntry.new : UrlEntry :=
  { loc := Location.None
    lastmod := LastMod.None
    changefreq := ChangeFreq.None
    priority := Priority.None }

/-- Associated function `UrlEntry::builder`. -/
def UrlEntry.builder : UrlEntryBuilder := { url_entry := UrlEntry.new }

/-- Struct `SiteMapEntry` from `structs.rs`. -/
structure SiteMapEntry where
  loc : Location
  lastmod : LastMod
deriving DecidableEq, Repr

/-- Struct `SiteMapEntryBuilder` from `structs.rs`. -/
structure SiteMapEntryBuilder where
  sitemap_entry : SiteMapEntry
deriving DecidableEq, Repr

/-- Method `SiteMapEntryBuilder::loc`. -/
def SiteMapEntryBuilder.loc (self : SiteMapEntryBuilder)
    (parseUrl : String → Except UrlParseError Sitemap.Url) (url : String) :
    Except Error SiteMapEntryBuilder :=
  Except.ok { self with
    sitemap_entry := { self.sitemap_entry with loc := Location.from_string parseUrl url } }

/-- Method `SiteMapEntryBuilder::lastmod`. -/
def SiteMapEntryBuilder.lastmod (self : SiteMapEntryBuilder) (date : Sitemap.DateTime) :
    Except Error SiteMapEntryBuilder :=
  Except.ok { self with
    sitemap_entry := { self.sitemap_entry with lastmod := LastMod.DateTime date } }

/-- Method `SiteMapEntryBuilder::build`. -/
def SiteMapEntryBuilder.build (self : SiteMapEntryBuilder) :
    Except Error SiteMapEntry :=
  match self.sitemap_entry.loc with
  | Location.Url _ => Except.ok self.sitemap_entry
  | _ => Except.error (Error.Invalid "Required a location in the sitemap")

/-- Associated function `SiteMapEntry::new`: a new empty `SiteMapEntry`. -/
def SiteMapEntry.new : SiteMapEntry :=
  { loc := Location.None
    lastmod := LastMod.None }

/-- Associated function `SiteMapEntry::builder`. -/
def SiteMapEntry.builder : SiteMapEntryBuilder :=
  { sitemap_entry := SiteMapEntry.new }

/-- C7: a freshly created aggregate has every field in its Absent variant:
`UrlEntry::new` sets loc, lastmod, changefreq and priority to `None`, and
`SiteMapEntry::new` sets loc and lastmod to `None`. -/
theorem new_entries_all_fields_absent :
    UrlEntry.new = ⟨Location.None, LastMod.None, ChangeFreq.None, Priority.None⟩
  ∧ SiteMapEntry.new = ⟨Location.None, LastMod.None⟩ :=
  ⟨rfl, rfl⟩

/-- C8: the get-if-valid accessors `Location::get_url`, `LastMod::get_time`
and `Priority::get_priority` return `some` of the inner value exactly on the
success variant and `none` on the absent variant and on every error
variant, with no failure path. -/
theorem get_if_valid_accessors :
    (∀ u, Location.get_url (Location.Url u) = some u)
  ∧ Location.get_url Location.None = none
  ∧ (∀ e, Location.get_url (Location.Err e) = none)
  ∧ (∀ t, LastMod.get_time (LastMod.DateTime t) = some t)
  ∧ LastMod.get_time LastMod.None = none
  ∧ (∀ e, LastMod.get_time (LastMod.Err e) = none)
  ∧ (∀ v, Priority.get_priority (Priority.Value v) = some v)
  ∧ Priority.get_priority Priority.None = none
  ∧ (∀ e, Priority.get_priority (Priority.Err e) = none)
  ∧ (∀ v, Priority.get_priority (Priority.ErrValueLesserZero v) = none)
  ∧ (∀ v, Priority.get_priority (Priority.ErrValueGreaterOne v) = none) :=
  ⟨fun _ => rfl, rfl, fun _ => rfl, fun _ => rfl, rfl, fun _ => rfl,
   fun _ => rfl, rfl, fun _ => rfl, fun _ => rfl, fun _ => rfl⟩

/-- C6: for each of the seven `ChangeFreq` enumerants, projecting to its
canonical lowercase string via `as_str` and converting back via the string
conversion yields the same enumerant; the absent and error variants project
to the empty string. -/
theorem changefreq_as_str_roundtrip :
    ChangeFreq.from_string ChangeFreq.Always.as_str = ChangeFreq.Always
  ∧ ChangeFreq.from_string ChangeFreq.Hourly.as_str = ChangeFreq.Hourly
  ∧ ChangeFreq.from_string ChangeFreq.Daily.as_str = ChangeFreq.Daily
  ∧ ChangeFreq.from_string ChangeFreq.Weekly.as_str = ChangeFreq.Weekly
  ∧ ChangeFreq.from_string ChangeFreq.Monthly.as_str = ChangeFreq.Monthly
  ∧ ChangeFreq.from_string ChangeFreq.Yearly.as_str = ChangeFreq.Yearly
  ∧ ChangeFreq.from_string ChangeFreq.Never.as_str = ChangeFreq.Never
  ∧ ChangeFreq.None.as_str = ""
  ∧ (∀ e, (ChangeFreq.Err e).as_str = "") :=
  ⟨by decide, by decide, by decide, by decide, by decide, by decide, by decide,
   rfl, fun _ => rfl⟩

/-- C10: the string conversions of the four field value types never
produce the absent variant: whatever the delegated parsers return, the
result is a success variant or a typed error variant. -/
theorem from_string_never_absent :
    (∀ (parseUrl : String → Except UrlParseError Sitemap.Url) (s : String),
      match Location.from_string parseUrl s with
      | Location.None => False
      | _ => True)
  ∧ (∀ (parseW3C : String → Except W3CParseError Sitemap.DateTime) (s : String),
      match LastMod.from_string parseW3C s with
      | LastMod.None => False
      | _ => True)
  ∧ (∀ s : String,
      match ChangeFreq.from_string s with
      | ChangeFreq.None => False
      | _ => True)
  ∧ (∀ (parseF32 : String → Except ParseFloatError F32) (s : String),
      match Priority.from_string parseF32 s with
      | Priority.None => False
      | _ => True) := by
  refine ⟨?_, ?_, ?_, ?_⟩
  · intro parseUrl s
    simp only [Location.from_string]
    cases parseUrl s <;> simp
  · intro parseW3C s
    simp only [LastMod.from_string]
    cases parseW3C s <;> simp
  · intro s
    simp only [ChangeFreq.from_string]
    split
    · rename_i heq
      split at heq <;> cases heq
    · trivial
  · intro parseF32 s
    simp only [Priority.from_string]
    cases parseF32 s
    case error e => trivial
    case ok value =>
      by_cases hg : F32.gt value f32One = true
      · simp [hg]
      · by_cases hl : F32.lt value f32Zero = true
        · simp [hg, hl]
        · simp [hg, hl]

/-- C3: `ChangeFreq` string conversion lower-cases the input and compares
it against the seven canonical tokens, so a string whose lowercase form is
a canonical token yields the corresponding enumerant, and any string whose
lowercase form matches none of the seven yields the error variant carrying
the original string with its original casing. -/
theorem changefreq_from_string_spec (s : String) :
    (rustToLowercase s = "always" → ChangeFreq.from_string s = ChangeFreq.Always)
  ∧ (rustToLowercase s = "hourly" → ChangeFreq.from_string s = ChangeFreq.Hourly)
  ∧ (rustToLowercase s = "daily" → ChangeFreq.from_string s = ChangeFreq.Daily)
  ∧ (rustToLowercase s = "weekly" → ChangeFreq.from_string s = ChangeFreq.Weekly)
  ∧ (rustToLowercase s = "monthly" → ChangeFreq.from_string s = ChangeFreq.Monthly)
  ∧ (rustToLowercase s = "yearly" → ChangeFreq.from_string s = ChangeFreq.Yearly)
  ∧ (rustToLowercase s = "never" → ChangeFreq.from_string s = ChangeFreq.Never)
  ∧ (rustToLowercase s ≠ "always" → rustToLowercase s ≠ "hourly" →
     rustToLowercase s ≠ "daily" → rustToLowercase s ≠ "weekly" →
     rustToLowercase s ≠ "monthly" → rustToLowercase s ≠ "yearly" →
     rustToLowercase s ≠ "never" →
     ChangeFreq.from_string s = ChangeFreq.Err (ChangeFreqParseError.new s)) := by
  refine ⟨?_, ?_, ?_, ?_, ?_, ?_, ?_, ?_⟩
  · intro h; simp only [ChangeFreq.from_string, h]
  · intro h; simp only [ChangeFreq.from_string, h]
  · intro h; simp only [ChangeFreq.from_string, h]
  · intro h; simp only [ChangeFreq.from_string, h]
  · intro h; simp only [ChangeFreq.from_string, h]
  · intro h; simp only [ChangeFreq.from_string, h]
  · intro h; simp only [ChangeFreq.from_string, h]
  · intro h1 h2 h3 h4 h5 h6 h7
    simp only [ChangeFreq.from_string]

/-- Witness for C3 at concrete inputs: an upper-case canonical token maps
to its enumerant, and a non-token string maps to the error variant
carrying the original text. -/
theorem changefreq_from_string_spec_witness :
    ChangeFreq.from_string "DAILY" = ChangeFreq.Daily
  ∧ ChangeFreq.from_string "fortnightly" =
      ChangeFreq.Err (ChangeFreqParseError.new "fortnightly") :=
  ⟨(changefreq_from_string_spec "DAILY").2.2.1 (by decide),
   (changefreq_from_string_spec "fortnightly").2.2.2.2.2.2.2
     (by decide) (by decide) (by decide) (by decide) (by decide) (by decide)
     (by decide)⟩

/-- C1: `Priority` string conversion returns the `Err` variant carrying
the parse error when the float parse fails; when the parse succeeds with
value v it returns `ErrValueGreaterOne v` if v > 1.0, `ErrValueLesserZero v`
if v < 0.0 (checked after the upper bound), and `Value v` otherwise; in
particular exactly 0.0 and exactly 1.0 convert to the valid variant. -/
theorem priority_from_string_classifies
    (parseF32 : String → Except ParseFloatError F32) (s : String) :
    (∀ e, parseF32 s = Except.error e →
      Priority.from_string parseF32 s = Priority.Err e)
  ∧ (∀ v, parseF32 s = Except.ok v → F32.gt v f32One = true →
      Priority.from_string parseF32 s = Priority.ErrValueGreaterOne v)
  ∧ (∀ v, parseF32 s = Except.ok v → F32.gt v f32One = false →
      F32.lt v f32Zero = true →
      Priority.from_string parseF32 s = Priority.ErrValueLesserZero v)
  ∧ (∀ v, parseF32 s = Except.ok v → F32.gt v f32One = false →
      F32.lt v f32Zero = false →
      Priority.from_string parseF32 s = Priority.Value v)
  ∧ (parseF32 s = Except.ok f32Zero →
      Priority.from_string parseF32 s = Priority.Value f32Zero)
  ∧ (parseF32 s = Except.ok f32One →
      Priority.from_string parseF32 s = Priority.Value f32One) := by
  refine ⟨?_, ?_, ?_, ?_, ?_, ?_⟩
  · intro e h; simp [Priority.from_string, h]
  · intro v h hg; simp [Priority.from_string, h, hg]
  · intro v h hg hl; simp [Priority.from_string, h, hg, hl]
  · intro v h hg hl; simp [Priority.from_string, h, hg, hl]
  · intro h; simp only [Priority.from_string, h]; decide
  · intro h; simp only [Priority.from_string, h]; decide

/-- Witness for C1 at concrete parse outcomes: a parse yielding 2.0 is
classified as greater-than-one, and a parse failure is preserved. -/
theorem priority_from_string_classifies_witness :
    Priority.from_string (fun _ => Except.ok (F32.finite 2)) "2" =
      Priority.ErrValueGreaterOne (F32.finite 2)
  ∧ Priority.from_string (fun _ => Except.error (ParseFloatError.mk "bad")) "x" =
      Priority.Err (ParseFloatError.mk "bad") :=
  ⟨(priority_from_string_classifies (fun _ => Except.ok (F32.finite 2)) "2").2.1
      (F32.finite 2) rfl (by decide),
   (priority_from_string_classifies (fun _ => Except.error (ParseFloatError.mk "bad")) "x").1
      (ParseFloatError.mk "bad") rfl⟩

/-- C2: builder finalization fails with the invalid-entry construction
error exactly when the stored location is not the `Url` variant; when it is,
the accumulated entry is returned with every other field carried over
unchanged, for both `UrlEntryBuilder::build` and `SiteMapEntryBuilder::build`. -/
theorem build_requires_valid_location :
    (∀ b : UrlEntryBuilder,
      (∀ u, b.url_entry.loc = Location.Url u → b.build = Except.ok b.url_entry)
      ∧ (b.url_entry.loc = Location.None ∨ (∃ e, b.url_entry.loc = Location.Err e) →
          b.build = Except.error (Error.Invalid "Required a location in the Url")))
  ∧ (∀ sb : SiteMapEntryBuilder,
      (∀ u, sb.sitemap_entry.loc = Location.Url u →
          sb.build = Except.ok sb.sitemap_entry)
      ∧ (sb.sitemap_entry.loc = Location.None ∨
          (∃ e, sb.sitemap_entry.loc = Location.Err e) →
          sb.build = Except.error (Error.Invalid "Required a location in the sitemap"))) := by
  constructor
  · intro b
    constructor
    · intro u h; simp [UrlEntryBuilder.build, h]
    · intro h
      rcases h with h | ⟨e, h⟩ <;> simp [UrlEntryBuilder.build, h]
  · intro sb
    constructor
    · intro u h; simp [SiteMapEntryBuilder.build, h]
    · intro h
      rcases h with h | ⟨e, h⟩ <;> simp [SiteMapEntryBuilder.build, h]

/-- Witness for C2: a builder holding a parsed location plus an invalid
change-frequency string still builds, and the error variant is carried
into the result; a builder with an absent location fails with the
construction error. -/
theorem build_requires_valid_location_witness :
    UrlEntryBuilder.build
      ⟨⟨Location.Url ⟨"https://example.com/"⟩, LastMod.None,
        ChangeFreq.Err (ChangeFreqParseError.new "fortnightly"), Priority.None⟩⟩ =
      Except.ok ⟨Location.Url ⟨"https://example.com/"⟩, LastMod.None,
        ChangeFreq.Err (ChangeFreqParseError.new "fortnightly"), Priority.None⟩
  ∧ UrlEntry.builder.build =
      Except.error (Error.Invalid "Required a location in the Url") :=
  ⟨(build_requires_valid_location.1
      ⟨⟨Location.Url ⟨"https://example.com/"⟩, LastMod.None,
        ChangeFreq.Err (ChangeFreqParseError.new "fortnightly"), Priority.None⟩⟩).1
      ⟨"https://example.com/"⟩ rfl,
   (build_requires_valid_location.1 UrlEntry.builder).2 (Or.inl rfl)⟩

/-- C9: each builder setter rewrites only its own field of the working
record: the result of every setter is the old record with exactly one
field replaced, for the four `UrlEntryBuilder` setters and the two
`SiteMapEntryBuilder` setters. -/
theorem builder_setters_frame :
    (∀ (b : UrlEntryBuilder) (parseUrl : String → Except UrlParseError Sitemap.Url)
        (s : String),
      b.loc parseUrl s = Except.ok ⟨⟨Location.from_string parseUrl s,
        b.url_entry.lastmod, b.url_entry.changefreq, b.url_entry.priority⟩⟩)
  ∧ (∀ (b : UrlEntryBuilder) (d : Sitemap.DateTime),
      b.lastmod d = Except.ok ⟨⟨b.url_entry.loc, LastMod.DateTime d,
        b.url_entry.changefreq, b.url_entry.priority⟩⟩)
  ∧ (∀ (b : UrlEntryBuilder) (cf : ChangeFreq),
      b.changefreq cf = Except.ok ⟨⟨b.url_entry.loc, b.url_entry.lastmod,
        cf, b.url_entry.priority⟩⟩)
  ∧ (∀ (b : UrlEntryBuilder) (val : F32) (b2 : UrlEntryBuilder),
      b.priority val = Except.ok b2 →
      b2 = ⟨⟨b.url_entry.loc, b.url_entry.lastmod, b.url_entry.changefreq,
        Priority.Value val⟩⟩)
  ∧ (∀ (sb : SiteMapEntryBuilder) (parseUrl : String → Except UrlParseError Sitemap.Url)
        (s : String),
      sb.loc parseUrl s = Except.ok ⟨⟨Location.from_string parseUrl s,
        sb.sitemap_entry.lastmod⟩⟩)
  ∧ (∀ (sb : SiteMapEntryBuilder) (d : Sitemap.DateTime),
      sb.lastmod d = Except.ok ⟨⟨sb.sitemap_entry.loc, LastMod.DateTime d⟩⟩) := by
  refine ⟨fun b parseUrl s => rfl, fun b d => rfl, fun b cf => rfl, ?_,
    fun sb parseUrl s => rfl, fun sb d => rfl⟩
  intro b val b2 h
  simp only [UrlEntryBuilder.priority] at h
  split at h
  · cases h
  · cases h
    rfl

/-- Witness for C9: the eager priority setter applied to the fresh builder
at 1.0 succeeds, and the resulting builder is the old record with only the
priority field replaced. -/
theorem builder_setters_frame_witness :
    UrlEntry.builder.priority f32One =
      Except.ok ⟨⟨Location.None, LastMod.None, ChangeFreq.None, Priority.Value f32One⟩⟩
  ∧ (⟨⟨Location.None, LastMod.None, ChangeFreq.None, Priority.Value f32One⟩⟩ :
      UrlEntryBuilder) =
      ⟨⟨UrlEntry.builder.url_entry.loc, UrlEntry.builder.url_entry.lastmod,
        UrlEntry.builder.url_entry.changefreq, Priority.Value f32One⟩⟩ :=
  ⟨rfl,
   builder_setters_frame.2.2.2.1 UrlEntry.builder f32One
     ⟨⟨Location.None, LastMod.None, ChangeFreq.None, Priority.Value f32One⟩⟩
     rfl⟩

/-- C5 counterexample: the eager setter rejects 1.5, but the message it
emits is the source's literal "priority should be betwheen 0 and 1",
which is not the string "priority should be between 0 and 1" named by the
claim. -/
theorem priority_setter_message_counterexample :
    UrlEntry.builder.priority (F32.finite (mkRat 3 2)) =
      Except.error (Error.Invalid "priority should be betwheen 0 and 1")
  ∧ (("priority should be betwheen 0 and 1" ==
      "priority should be between 0 and 1") = false) :=
  ⟨rfl, rfl⟩

/-- C5 amended: for every builder and float val, the eager priority setter
fails with the construction error whose message is the source's literal
"priority should be betwheen 0 and 1" when val > 1.0 or val < 0.0, and
otherwise stores `Priority::Value(val)` in the builder and succeeds. -/
theorem priority_setter_spec (b : UrlEntryBuilder) (val : F32) :
    (F32.gt val f32One = true ∨ F32.lt val f32Zero = true →
      b.priority val =
        Except.error (Error.Invalid "priority should be betwheen 0 and 1"))
  ∧ (F32.gt val f32One = false → F32.lt val f32Zero = false →
      b.priority val = Except.ok ⟨⟨b.url_entry.loc, b.url_entry.lastmod,
        b.url_entry.changefreq, Priority.Value val⟩⟩) := by
  constructor
  · intro h
    rcases h with h | h <;> simp [UrlEntryBuilder.priority, h]
  · intro hg hl
    simp [UrlEntryBuilder.priority, hg, hl]

/-- Witness for C5 amended: 2.0 is rejected with the source's message and
0.5 is stored as a valid priority. -/
theorem priority_setter_spec_witness :
    UrlEntry.builder.priority (F32.finite 2) =
      Except.error (Error.Invalid "priority should be betwheen 0 and 1")
  ∧ UrlEntry.builder.priority (F32.finite (mkRat 1 2)) =
      Except.ok ⟨⟨Location.None, LastMod.None, ChangeFreq.None,
        Priority.Value (F32.finite (mkRat 1 2))⟩⟩ :=
  ⟨(priority_setter_spec UrlEntry.builder (F32.finite 2)).1 (Or.inl (by decide)),
   (priority_setter_spec UrlEntry.builder (F32.finite (mkRat 1 2))).2
     (by decide) (by decide)⟩

/-- C4 counterexample: the eager setter applied to the IEEE NaN value
succeeds and stores NaN under the `Value` variant, yet NaN does not
satisfy 0.0 ≤ v ≤ 1.0 (both comparisons are false for NaN), so a `Value`
payload does not always lie in the closed unit interval. -/
theorem priority_valid_payload_counterexample :
    UrlEntry.builder.priority F32.nan =
      Except.ok ⟨⟨Location.None, LastMod.None, ChangeFreq.None,
        Priority.Value F32.nan⟩⟩
  ∧ F32.le f32Zero F32.nan = false
  ∧ F32.le F32.nan f32One = false :=
  ⟨rfl, rfl, rfl⟩

/-- C4 amended: in every `Priority` produced by the string conversion or
by the eager setter, a payload stored under `Value` satisfies
v > 1.0 = false and v < 0.0 = false; for every non-NaN value this is
equivalent to 0.0 ≤ v ≤ 1.0, but NaN, which also fails both strict
comparisons, can be stored under `Value`. -/
theorem priority_value_never_strictly_out_of_range :
    (∀ (parseF32 : String → Except ParseFloatError F32) (s : String) (v : F32),
      Priority.from_string parseF32 s = Priority.Value v →
      F32.gt v f32One = false ∧ F32.lt v f32Zero = false)
  ∧ (∀ (b : UrlEntryBuilder) (val : F32) (b2 : UrlEntryBuilder),
      b.priority val = Except.ok b2 →
      b2.url_entry.priority = Priority.Value val
      ∧ F32.gt val f32One = false ∧ F32.lt val f32Zero = false) := by
  constructor
  · intro parseF32 s v h
    simp only [Priority.from_string] at h
    cases hp : parseF32 s with
    | error e => rw [hp] at h; cases h
    | ok value =>
      rw [hp] at h
      by_cases hg : F32.gt value f32One = true
      · simp [hg] at h
      · by_cases hl : F32.lt value f32Zero = true
        · simp [hg, hl] at h
        · simp only [Bool.not_eq_true] at hg hl
          simp [hg, hl] at h
          subst h
          exact ⟨hg, hl⟩
  · intro b val b2 h
    simp only [UrlEntryBuilder.priority] at h
    split at h
    · cases h
    · rename_i hcond
      cases h
      simp only [Bool.or_eq_true, not_or, Bool.not_eq_true] at hcond
      exact ⟨rfl, hcond.1, hcond.2⟩

/-- Witness for C4 amended: a parse outcome of exactly 1.0 is stored under
`Value` and indeed fails both strict out-of-range comparisons. -/
theorem priority_value_never_strictly_out_of_range_witness :
    F32.gt f32One f32One = false ∧ F32.lt f32One f32Zero = false :=
  priority_value_never_strictly_out_of_range.1
    (fun _ => Except.ok f32One) "1.0" f32One (by decide)
end Sitemap
